import Mathlib

/-
Shallow embedding of the News Aggregation & Sentiment Verdict Engine
(src/news.py).  External effects (HTTP fetches, the VADER and FinBERT
models, the summarization model) are modelled as oracle functions packed
into a `NewsOracles` record; every function of the pipeline is translated
from the source, with Python floats modelled by exact rationals (the
constants 0.4 and 0.05 are the exact rationals 2/5 and 5/100).
-/

/-- A raw article as produced by the fetch functions of src/news.py
(lines 57-122): a `(title, summary, link)` triple where the summary may
be absent (`None` in MoneyControl/Bing results). -/
abbrev RawTriple := String × Option String × String

/-- An analyzed article as appended to `analyzed_news` in
`fetch_and_analyze_news` (line 242): `(headline, summary, sentiment, link)`. -/
abbrev AnalyzedItem := String × String × String × String

/-- The external world of src/news.py: the three news fetchers
(lines 57, 77, 101), the article-page fetch plus paragraph extraction used
by `parse_and_summarize_article` (lines 136-144, `none` = request failure,
`some t` = the joined paragraph text before `strip()`), the summarization
model (line 153, `none` = exception or a non-list/falsy result), the VADER
compound score (line 171, `none` = exception) and the FinBERT label
(line 180, `none` = exception). -/
structure NewsOracles where
  scrape_moneycontrol_news : String → List RawTriple
  scrape_bing_news : String → List RawTriple
  fetch_news_newsdata : String → List RawTriple
  fetch_page : String → Option String
  summarizer : String → Option String
  vader : String → Option ℚ
  finbert : String → Option String

/-- Python `str.capitalize()` (restricted to ASCII case mapping): first
character upper-cased, the rest lower-cased. -/
def pyCapitalize (s : String) : String :=
  match s.data with
  | [] => ""
  | c :: cs => String.mk (c.toUpper :: cs.map Char.toLower)

/-- Python `str.strip()`: remove leading and trailing whitespace, written
structurally on the character list so that it evaluates by reduction. -/
def pyStrip (s : String) : String :=
  String.mk (((s.data.dropWhile Char.isWhitespace).reverse.dropWhile Char.isWhitespace).reverse)

/-- Python slicing `s[:n]`: the first `n` characters, written structurally
on the character list so that it evaluates by reduction. -/
def pyTake (s : String) (n : Nat) : String :=
  String.mk (s.data.take n)

/-- Embedding of `parse_and_summarize_article` (src/news.py lines 127-158).
The fetched page's joined paragraph text is stripped; if it is shorter than
200 characters the sentinel is returned, otherwise the text is truncated to
`max_chars` characters and handed to the summarizer; any failure anywhere
yields the sentinel "No summary available". -/
def parse_and_summarize_article (fetch_page : String → Option String)
    (summarizer : String → Option String) (url : String) (max_chars : Nat) : String :=
  match fetch_page url with
  | none => "No summary available"
  | some raw =>
    let text_content := pyStrip raw
    if text_content.length < 200 then "No summary available"
    else
      match summarizer (pyTake text_content max_chars) with
      | some s => s
      | none => "No summary available"

/-- Embedding of `analyze_sentiment` (src/news.py lines 163-185).  The
VADER branch thresholds the compound score at ±0.05; the FinBERT branch
truncates the text to 512 characters and capitalizes the returned label;
an exception in either branch returns "Error" (line 184); a method other
than "VADER" and "FinBERT" falls through to "Neutral" (line 185). -/
def analyze_sentiment (vader : String → Option ℚ) (finbert : String → Option String)
    (text method : String) : String :=
  if method = "VADER" then
    match vader text with
    | some compound =>
      if compound ≥ 5/100 then "Positive"
      else if compound ≤ -5/100 then "Negative"
      else "Neutral"
    | none => "Error"
  else if method = "FinBERT" then
    match finbert (pyTake text 512) with
    | some lab => pyCapitalize lab
    | none => "Error"
  else "Neutral"

/-- Embedding of the fallback at src/news.py lines 230-232: a sentiment
outside {"Positive", "Negative", "Neutral"} is replaced by "Neutral". -/
def coerce_label (s : String) : String :=
  if s = "Positive" ∨ s = "Negative" ∨ s = "Neutral" then s else "Neutral"

/-- Embedding of the summary enrichment at src/news.py lines 220-224:
`if not summary: summary = parse_and_summarize_article(link)`.  Python
truthiness makes both `None` and the empty string trigger derivation. -/
def enrich_summary (parse_link : String → String) : Option String → String → String
  | some s, link => if s = "" then parse_link link else s
  | none, link => parse_link link

/-- The enrichment step of src/news.py lines 220-224 viewed on a whole
article triple: the summary field is filled in, title and link are kept. -/
def enrich_article (o : NewsOracles) (t : RawTriple) : RawTriple :=
  (t.1,
   some (enrich_summary
     (fun link => parse_and_summarize_article o.fetch_page o.summarizer link 2000) t.2.1 t.2.2),
   t.2.2)

/-- One iteration of the loop at src/news.py lines 220-242 applied to an
article: enrich the summary, classify the HEADLINE (line 228:
`analyze_sentiment(headline, method).capitalize()`), coerce stray labels
to "Neutral" (lines 230-232), and build the analyzed tuple (line 242). -/
def process_article (o : NewsOracles) (method : String) (t : RawTriple) : AnalyzedItem :=
  (t.1,
   enrich_summary
     (fun link => parse_and_summarize_article o.fetch_page o.summarizer link 2000) t.2.1 t.2.2,
   coerce_label (pyCapitalize (analyze_sentiment o.vader o.finbert t.1 method)),
   t.2.2)

/-- Variant of `process_article` following the spec's words rather than the
source, for comparison only: the spec states "Classification is applied to
a company-specific combination of title and enriched summary (both used
jointly where available)", with the scenario text "Profits surge.
ok-summary" fixing the combination as title ++ ". " ++ summary. -/
def process_article_spec_combined (o : NewsOracles) (method : String) (t : RawTriple) :
    AnalyzedItem :=
  let summary := enrich_summary
    (fun link => parse_and_summarize_article o.fetch_page o.summarizer link 2000) t.2.1 t.2.2
  (t.1,
   summary,
   coerce_label (pyCapitalize
     (analyze_sentiment o.vader o.finbert (t.1 ++ ". " ++ summary) method)),
   t.2.2)

/-- One step of the counting loop at src/news.py lines 234-242: the
accumulator is `(pos, neg, neu, analyzed_news)`; exactly one counter is
incremented (`if / elif / else`) and the analyzed tuple is appended. -/
def analyze_step (o : NewsOracles) (method : String)
    (acc : Nat × Nat × Nat × List AnalyzedItem) (t : RawTriple) :
    Nat × Nat × Nat × List AnalyzedItem :=
  if (process_article o method t).2.2.1 = "Positive" then
    (acc.1 + 1, acc.2.1, acc.2.2.1, acc.2.2.2 ++ [process_article o method t])
  else if (process_article o method t).2.2.1 = "Negative" then
    (acc.1, acc.2.1 + 1, acc.2.2.1, acc.2.2.2 ++ [process_article o method t])
  else
    (acc.1, acc.2.1, acc.2.2.1 + 1, acc.2.2.2 ++ [process_article o method t])

/-- The whole loop of src/news.py lines 217-242 starting from
`pos, neg, neu = 0, 0, 0` and `analyzed_news = []`. -/
def analyze_all (o : NewsOracles) (method : String) (sources : List RawTriple) :
    Nat × Nat × Nat × List AnalyzedItem :=
  sources.foldl (analyze_step o method) (0, 0, 0, [])

/-- The verdict rule of src/news.py lines 244-254: `total = pos+neg+neu`;
zero total gives "Neutral"; otherwise the positive ratio is checked first
against 0.4, then the negative ratio.  The comparison `pos/total > 0.4` is
embedded as the exact integer inequality `5*pos > 2*total`, which for
`total ≠ 0` is equivalent to the rational-ratio comparison
`(pos : ℚ)/total > 2/5` (proved in `ratio_gt_two_fifths_iff` below); for
the small integer counts reachable here the Python float comparison agrees
with the exact one. -/
def overall_verdict (pos neg neu : Nat) : String :=
  let total : Nat := pos + neg + neu
  if total = 0 then "Neutral"
  else if 5 * pos > 2 * total then "Positive"
  else if 5 * neg > 2 * total then "Negative"
  else "Neutral"

/-- Embedding of `fetch_and_analyze_news` (src/news.py lines 190-256).
Source selection (lines 202-212): aggregate mode concatenates
NewsData ++ (MoneyControl ++ Bing); otherwise `use_newsdata` selects
NewsData alone, else MoneyControl ++ Bing.  An empty source list returns
("Neutral", []) (lines 214-215); otherwise the counting loop runs and the
verdict rule is applied (the `total == 0` early return at line 246 returns
the same pair as the rule's zero branch). -/
def fetch_and_analyze_news (o : NewsOracles) (company method : String)
    (use_newsdata aggregate_sources : Bool) : String × List AnalyzedItem :=
  let news_sources :=
    if aggregate_sources then
      o.fetch_news_newsdata company ++
        (o.scrape_moneycontrol_news company ++ o.scrape_bing_news company)
    else if use_newsdata then
      o.fetch_news_newsdata company
    else
      o.scrape_moneycontrol_news company ++ o.scrape_bing_news company
  if news_sources = [] then ("Neutral", [])
  else
    let r := analyze_all o method news_sources
    (overall_verdict r.1 r.2.1 r.2.2.1, r.2.2.2)

/-- For a nonzero denominator the integer test `5*k > 2*total` used in
`overall_verdict` is exactly the rational ratio comparison written in the
source (`k/total > 0.4` with 0.4 = 2/5). -/
theorem ratio_gt_two_fifths_iff (k total : Nat) (h : total ≠ 0) :
    (k : ℚ) / (total : ℚ) > 2/5 ↔ 5 * k > 2 * total := by
  have ht : (0 : ℚ) < (total : ℚ) := by exact_mod_cast Nat.pos_of_ne_zero h
  rw [gt_iff_lt, div_lt_div_iff₀ (by norm_num) ht, gt_iff_lt, mul_comm ((k : ℚ)) 5]
  exact_mod_cast Iff.rfl

/-- Invariant of the counting loop of src/news.py lines 220-242: every
processed article raises the counters' sum by exactly one and appends
exactly one analyzed tuple, in order. -/
theorem analyze_loop_inv (o : NewsOracles) (method : String) (l : List RawTriple) :
    ∀ acc : Nat × Nat × Nat × List AnalyzedItem,
      ((l.foldl (analyze_step o method) acc).1 +
          (l.foldl (analyze_step o method) acc).2.1 +
          (l.foldl (analyze_step o method) acc).2.2.1 =
        acc.1 + acc.2.1 + acc.2.2.1 + l.length) ∧
      (l.foldl (analyze_step o method) acc).2.2.2 =
        acc.2.2.2 ++ l.map (process_article o method) := by
  induction l with
  | nil => intro acc; simp
  | cons t ts ih =>
    intro acc
    have h := ih (analyze_step o method acc t)
    rw [List.foldl_cons, List.map_cons]
    constructor
    · rw [h.1]
      simp only [analyze_step]
      split_ifs <;> simp <;> omega
    · rw [h.2]
      simp only [analyze_step]
      split_ifs <;> simp

/-- The analyzed-news component of the loop is the map of the per-article
processing over the source list. -/
theorem analyze_all_news (o : NewsOracles) (method : String) (l : List RawTriple) :
    (analyze_all o method l).2.2.2 = l.map (process_article o method) := by
  have h := (analyze_loop_inv o method l (0, 0, 0, [])).2
  simpa [analyze_all] using h

/-- The article list returned by `fetch_and_analyze_news` is the processed
version of whichever source list the two flags select. -/
theorem fetch_and_analyze_news_snd (o : NewsOracles) (company method : String)
    (u a : Bool) :
    (fetch_and_analyze_news o company method u a).2 =
      (if a then
          o.fetch_news_newsdata company ++
            (o.scrape_moneycontrol_news company ++ o.scrape_bing_news company)
        else if u then o.fetch_news_newsdata company
        else o.scrape_moneycontrol_news company ++ o.scrape_bing_news company).map
        (process_article o method) := by
  simp only [fetch_and_analyze_news]
  by_cases h :
      (if a then
          o.fetch_news_newsdata company ++
            (o.scrape_moneycontrol_news company ++ o.scrape_bing_news company)
        else if u then o.fetch_news_newsdata company
        else o.scrape_moneycontrol_news company ++ o.scrape_bing_news company) = []
  · simp [h]
  · simp [h, analyze_all_news]

/-- C1: the overall verdict is a pure function of the sentiment counts:
with total = positive+negative+neutral, a zero total gives Neutral;
otherwise the verdict is Positive when positive/total > 0.4, else Negative
when negative/total > 0.4, else Neutral; and on the two-Positive,
two-Negative tie both ratios exceed 0.4 and the Positive branch, checked
first, wins. -/
theorem C1_verdict_rule (pos neg neu : Nat) :
    (pos + neg + neu = 0 → overall_verdict pos neg neu = "Neutral") ∧
    (pos + neg + neu ≠ 0 →
      overall_verdict pos neg neu =
        if (pos : ℚ) / ((pos + neg + neu : Nat) : ℚ) > 2/5 then "Positive"
        else if (neg : ℚ) / ((pos + neg + neu : Nat) : ℚ) > 2/5 then "Negative"
        else "Neutral") ∧
    overall_verdict 2 2 0 = "Positive" := by
  refine ⟨fun h => by simp [overall_verdict, h], fun h => ?_, by decide⟩
  simp only [overall_verdict, ratio_gt_two_fifths_iff _ _ h, if_neg h]

/-- Witness for C1: a zero-total run is Neutral and a 3-1-0 run is
Positive, both read off the proved rule. -/
theorem C1_verdict_rule_witness :
    overall_verdict 0 0 0 = "Neutral" ∧ overall_verdict 3 1 0 = "Positive" := by
  constructor
  · exact (C1_verdict_rule 0 0 0).1 rfl
  · have h := (C1_verdict_rule 3 1 0).2.1 (by decide)
    rw [h, if_pos (by norm_num)]

/-- Oracle for the C2 comparison: a FinBERT classifier that labels the bare
title "Good" positive and any other text negative, with no other effects. -/
def titleOnlyOracle : NewsOracles :=
  ⟨fun _ => [], fun _ => [], fun _ => [], fun _ => none, fun _ => none,
   fun _ => none, fun s => if s = "Good" then some "positive" else some "negative"⟩

/-- C2 is false on the code: src/news.py line 228 classifies the bare
headline, so at this concrete input the implementation returns Positive
while classification of the title-plus-enriched-summary combination the
spec demands returns Negative — the classifier input is not the
combination. -/
theorem C2_counterexample :
    (process_article titleOnlyOracle "FinBERT" ("Good", some "bad", "l")).2.2.1 = "Positive" ∧
    (process_article_spec_combined titleOnlyOracle "FinBERT"
      ("Good", some "bad", "l")).2.2.1 = "Negative" :=
  ⟨by decide, by decide⟩

/-- C2 amended: the text passed to the sentiment classifier is the
article's title alone; the enriched summary never influences the
classification, so two articles with equal titles always receive equal
sentiments whatever their summaries and links. -/
theorem C2_amended_title_only (o : NewsOracles) (method : String) (t u : RawTriple)
    (h : t.1 = u.1) :
    (process_article o method t).2.2.1 = (process_article o method u).2.2.1 := by
  have hp : ∀ v : RawTriple, (process_article o method v).2.2.1 =
      coerce_label (pyCapitalize (analyze_sentiment o.vader o.finbert v.1 method)) :=
    fun v => rfl
  rw [hp, hp, h]

/-- Witness for the amended C2: equal titles, different summaries and
links, same sentiment. -/
theorem C2_amended_title_only_witness :
    (process_article titleOnlyOracle "FinBERT" ("T", some "a", "l1")).2.2.1 =
      (process_article titleOnlyOracle "FinBERT" ("T", some "b", "l2")).2.2.1 :=
  C2_amended_title_only titleOnlyOracle "FinBERT" ("T", some "a", "l1")
    ("T", some "b", "l2") rfl

/-- Oracle for the C3 counterexample: MoneyControl and Bing each return one
article, NewsData none. -/
def bothAdaptersOracle : NewsOracles :=
  ⟨fun _ => [("A", some "sa", "la")], fun _ => [("B", some "sb", "lb")], fun _ => [],
   fun _ => none, fun _ => none, fun _ => none, fun _ => none⟩

/-- C3 is false on the code: in the default (non-aggregate) mode the first
adapter (MoneyControl) returns a non-empty list, yet the second adapter's
article "B" still appears in the output — later adapters are invoked and
kept, so the orchestrator does not stop at the first non-empty adapter. -/
theorem C3_counterexample :
    bothAdaptersOracle.scrape_moneycontrol_news "c" ≠ [] ∧
    ((fetch_and_analyze_news bothAdaptersOracle "c" "VADER" false false).2).map
      (fun x => x.1) = ["A", "B"] :=
  ⟨by decide, by decide⟩

/-- C3 amended: there is no first-success fallback; the flags select a
fixed source set: with both flags off the pipeline processes the
concatenation of MoneyControl's and Bing's outputs (both adapters are
always used, even when the first already returned articles), and with
use_newsdata on it processes NewsData's output alone. -/
theorem C3_amended_fixed_sources (o : NewsOracles) (company method : String) :
    (fetch_and_analyze_news o company method false false).2 =
      (o.scrape_moneycontrol_news company ++ o.scrape_bing_news company).map
        (process_article o method) ∧
    (fetch_and_analyze_news o company method true false).2 =
      (o.fetch_news_newsdata company).map (process_article o method) := by
  constructor
  · simpa using fetch_and_analyze_news_snd o company method false false
  · simpa using fetch_and_analyze_news_snd o company method true false

/-- Oracle for the C4 counterexample: MoneyControl returns the same
(title, source) twice. -/
def duplicateOracle : NewsOracles :=
  ⟨fun _ => [("X", some "s", "l"), ("X", some "s", "l")], fun _ => [], fun _ => [],
   fun _ => none, fun _ => none, fun _ => none, fun _ => none⟩

/-- C4 is false on the code: aggregate mode performs no deduplication; two
articles with the same normalized (title, source) — both titled "X" and
both from the MoneyControl adapter — survive into the merged output, whose
title list is not duplicate-free. -/
theorem C4_counterexample :
    ¬ (((fetch_and_analyze_news duplicateOracle "c" "VADER" false true).2).map
        (fun x => x.1)).Nodup := by decide

/-- C4 amended: aggregate mode concatenates NewsData's, MoneyControl's and
Bing's outputs in that order, preserving each adapter's internal order, and
performs no deduplication — duplicate (title, source) pairs are retained. -/
theorem C4_amended_concat (o : NewsOracles) (company method : String) (u : Bool) :
    (fetch_and_analyze_news o company method u true).2 =
      (o.fetch_news_newsdata company ++
        (o.scrape_moneycontrol_news company ++ o.scrape_bing_news company)).map
        (process_article o method) := by
  simpa using fetch_and_analyze_news_snd o company method u true

set_option maxRecDepth 4000 in
/-- C5 is false on the code: a page whose extracted text has 150
characters — well above the claimed 100-character threshold — still gets
the sentinel "No summary available", because the threshold at
src/news.py line 147 is 200, not 100. -/
theorem C5_counterexample :
    parse_and_summarize_article (fun _ => some (String.mk (List.replicate 150 'a')))
      (fun _ => some "derived summary") "http://x" 2000 = "No summary available" := by
  decide

/-- C5 amended: when the linked page is fetched successfully, a derived
summary is produced exactly when the stripped extracted text has at least
200 characters and the summarizer returns a result; text shorter than 200
characters yields the sentinel "No summary available". -/
theorem C5_amended_threshold (fetch_page summarizer : String → Option String)
    (url text s : String) (hf : fetch_page url = some text) :
    ((pyStrip text).length < 200 →
      parse_and_summarize_article fetch_page summarizer url 2000 = "No summary available") ∧
    (200 ≤ (pyStrip text).length →
      summarizer (pyTake (pyStrip text) 2000) = some s →
      parse_and_summarize_article fetch_page summarizer url 2000 = s) := by
  constructor
  · intro h
    simp [parse_and_summarize_article, hf, h]
  · intro h hs
    simp [parse_and_summarize_article, hf, Nat.not_lt.mpr h, hs]

set_option maxRecDepth 8000 in
/-- Witness for the amended C5 at a 250-character page text with a
succeeding summarizer. -/
theorem C5_amended_threshold_witness :
    parse_and_summarize_article (fun _ => some (String.mk (List.replicate 250 'b')))
      (fun _ => some "short derived") "u" 2000 = "short derived" :=
  (C5_amended_threshold (fun _ => some (String.mk (List.replicate 250 'b')))
      (fun _ => some "short derived") "u" (String.mk (List.replicate 250 'b'))
      "short derived" rfl).2 (by decide) rfl

/-- C6: the per-article sentiment recorded by the pipeline is always one of
Positive, Negative, Neutral: the coercion at src/news.py lines 230-232
maps any stray strategy label — in particular the "Error" produced when
the classification strategy fails (line 184) — to "Neutral", so
classification never aborts the pipeline. -/
theorem C6_sentiment_total (o : NewsOracles) (method : String) (t : RawTriple) :
    ((process_article o method t).2.2.1 = "Positive" ∨
      (process_article o method t).2.2.1 = "Negative" ∨
      (process_article o method t).2.2.1 = "Neutral") ∧
    (analyze_sentiment o.vader o.finbert t.1 method = "Error" →
      (process_article o method t).2.2.1 = "Neutral") := by
  have hv : (process_article o method t).2.2.1 =
      coerce_label (pyCapitalize (analyze_sentiment o.vader o.finbert t.1 method)) := rfl
  constructor
  · rw [hv]
    unfold coerce_label
    split_ifs with h
    · exact h
    · right; right; rfl
  · intro h
    rw [hv, h]
    decide

/-- Oracle for the C6 witness: every external strategy fails. -/
def failingOracle : NewsOracles :=
  ⟨fun _ => [], fun _ => [], fun _ => [], fun _ => none, fun _ => none,
   fun _ => none, fun _ => none⟩

/-- Witness for C6: an article whose VADER call throws is recorded as
Neutral. -/
theorem C6_sentiment_total_witness :
    (process_article failingOracle "VADER" ("T", some "s", "L")).2.2.1 = "Neutral" :=
  (C6_sentiment_total failingOracle "VADER" ("T", some "s", "L")).2 (by decide)

/-- C7: for every run of the counting loop, positive + negative + neutral
equals the length of the produced article list: each processed article
increments exactly one counter and contributes exactly one entry. -/
theorem C7_counts_match_articles (o : NewsOracles) (method : String)
    (sources : List RawTriple) :
    (analyze_all o method sources).1 + (analyze_all o method sources).2.1 +
        (analyze_all o method sources).2.2.1 =
      (analyze_all o method sources).2.2.2.length := by
  have h := analyze_loop_inv o method sources (0, 0, 0, [])
  unfold analyze_all
  rw [h.1, h.2]
  simp

/-- C8: when every configured source returns no articles the pipeline
returns ("Neutral", []) — empty article list (hence all-zero counts) and
verdict Neutral — and, being a total function, surfaces no exception. -/
theorem C8_empty_sources_neutral (o : NewsOracles) (company method : String)
    (u a : Bool)
    (h1 : o.scrape_moneycontrol_news company = [])
    (h2 : o.scrape_bing_news company = [])
    (h3 : o.fetch_news_newsdata company = []) :
    fetch_and_analyze_news o company method u a = ("Neutral", []) := by
  cases a <;> cases u <;> simp [fetch_and_analyze_news, h1, h2, h3]

/-- Oracle for the C8 witness: every adapter returns nothing. -/
def emptyWorldOracle : NewsOracles :=
  ⟨fun _ => [], fun _ => [], fun _ => [], fun _ => none, fun _ => none,
   fun _ => none, fun _ => none⟩

/-- Witness for C8: a company with all adapters empty yields the Neutral
empty report. -/
theorem C8_empty_sources_neutral_witness :
    fetch_and_analyze_news emptyWorldOracle "HDFC Bank" "VADER" false true =
      ("Neutral", []) :=
  C8_empty_sources_neutral emptyWorldOracle "HDFC Bank" "VADER" false true rfl rfl rfl

/-- C9: an article whose summary is already present (non-None and
non-empty, i.e. truthy in Python) passes through the enrichment step
unchanged, and hence enriching twice equals enriching once on such an
article. -/
theorem C9_enrich_idempotent (o : NewsOracles) (t : RawTriple) (s : String)
    (hs : t.2.1 = some s) (hne : s ≠ "") :
    enrich_article o t = t ∧
    enrich_article o (enrich_article o t) = enrich_article o t := by
  obtain ⟨a, b, c⟩ := t
  have hb : b = some s := hs
  subst hb
  have h1 : enrich_article o (a, some s, c) = (a, some s, c) := by
    simp [enrich_article, enrich_summary, hne]
  exact ⟨h1, by rw [h1, h1]⟩

/-- Oracle for the C9 witness: no network, no models. -/
def noNetworkOracle : NewsOracles :=
  ⟨fun _ => [], fun _ => [], fun _ => [], fun _ => none, fun _ => none,
   fun _ => none, fun _ => none⟩

/-- Witness for C9 at a concrete already-enriched article. -/
theorem C9_enrich_idempotent_witness :
    enrich_article noNetworkOracle ("T", some "sum", "L") = ("T", some "sum", "L") :=
  (C9_enrich_idempotent noNetworkOracle ("T", some "sum", "L") "sum" rfl (by decide)).1

/-- C10: any method string other than "VADER" and "FinBERT" falls through
to the final return "Neutral" of analyze_sentiment (src/news.py line 185)
without being rejected and without raising. -/
theorem C10_unknown_method_neutral (vader : String → Option ℚ)
    (finbert : String → Option String) (text method : String)
    (h1 : method ≠ "VADER") (h2 : method ≠ "FinBERT") :
    analyze_sentiment vader finbert text method = "Neutral" := by
  unfold analyze_sentiment
  rw [if_neg h1, if_neg h2]

/-- Witness for C10 with the unrecognized method "TextBlob". -/
theorem C10_unknown_method_neutral_witness :
    analyze_sentiment (fun _ => none) (fun _ => none) "Profits surge" "TextBlob" =
      "Neutral" :=
  C10_unknown_method_neutral (fun _ => none) (fun _ => none) "Profits surge" "TextBlob"
    (by decide) (by decide)
